import Mathlib

/-!
Shallow embedding of `src/weather.py`, an MCP weather server exposing two
tools, `get_alerts` and `get_forecast`, over the National Weather Service
HTTP API.  Python dictionaries coming from `response.json()` are modelled by
the inductive `Json` below; Python runtime exceptions (KeyError, TypeError,
AttributeError, ...) are modelled by the `Except String` monad, written with
explicit matches so that every propagation step is visible.  The two network
calls are pure parameters: `get_alerts` receives the already-fetched result
(`Option Json`, `none` standing for the fetcher's Absent/None result), and
`get_forecast` receives a fetch oracle `String → Option Json` giving the
result of `make_nws_request` at each URL.
-/

namespace Weather

/-- JSON values as produced by `response.json()`.  Objects are association
lists (Python dicts have unique keys; lookup takes the first binding).
Numbers are modelled as integers, which covers every numeric field the
handlers touch; string repr escaping is elided. -/
inductive Json where
  | null : Json
  | bool : Bool → Json
  | int : Int → Json
  | str : String → Json
  | arr : List Json → Json
  | obj : List (String × Json) → Json

/-- Key lookup in a Python dict, first binding wins. -/
def lookupKey : List (String × Json) → String → Option Json
  | [], _ => none
  | (k, v) :: rest, key => if k = key then some v else lookupKey rest key

/-- Python truthiness (`bool(x)`) of a JSON value: `None`, `False`, `0`,
`""`, `[]` and `\x7b\x7d` are falsy, everything else truthy. -/
def Json.truthy : Json → Bool
  | Json.null => false
  | Json.bool b => b
  | Json.int n => n != 0
  | Json.str s => s != ""
  | Json.arr xs => !xs.isEmpty
  | Json.obj kvs => !kvs.isEmpty

mutual

/-- Python `repr` of a JSON value (quote/escape subtleties of string repr
are elided; the handlers only ever repr values nested inside containers). -/
def pyRepr : Json → String
  | Json.null => "None"
  | Json.bool b => if b then "True" else "False"
  | Json.int n => toString n
  | Json.str s => "'" ++ s ++ "'"
  | Json.arr xs => "[" ++ String.intercalate ", " (pyReprList xs) ++ "]"
  | Json.obj kvs => "\x7b" ++ String.intercalate ", " (pyReprEntries kvs) ++ "\x7d"

/-- reprs of the elements of a Python list. -/
def pyReprList : List Json → List String
  | [] => []
  | x :: xs => pyRepr x :: pyReprList xs

/-- reprs of the entries of a Python dict. -/
def pyReprEntries : List (String × Json) → List String
  | [] => []
  | (k, v) :: rest => ("'" ++ k ++ "': " ++ pyRepr v) :: pyReprEntries rest

end

/-- Python `str(x)`, as used by f-string interpolation: a str interpolates
as itself, every other value as its repr. -/
def pyStr : Json → String
  | Json.str s => s
  | j => pyRepr j

/-- Python `x.get(key, default)`: defined on dicts; any other receiver has
no `get` attribute and raises AttributeError. -/
def Json.pyGet : Json → String → Json → Except String Json
  | Json.obj kvs, key, dflt => Except.ok ((lookupKey kvs key).getD dflt)
  | _, _, _ => Except.error "AttributeError: object has no attribute get"

/-- Python subscription `x[key]` with a string key: dict lookup raising
KeyError on a missing key; any non-dict receiver raises TypeError. -/
def Json.indexStr : Json → String → Except String Json
  | Json.obj kvs, key =>
    match lookupKey kvs key with
    | some v => Except.ok v
    | none => Except.error ("KeyError: " ++ key)
  | _, key => Except.error ("TypeError: value is not subscriptable by " ++ key)

/-- Python `==` between an arbitrary value and a str: true exactly for an
equal str (cross-type equality is False in Python). -/
def jsonEqStr : Json → String → Bool
  | Json.str s, k => s == k
  | _, _ => false

/-- Substring test used by Python `key in someString`. -/
def strContains (s sub : String) : Bool :=
  if sub = "" then true else (s.splitOn sub).length != 1

/-- Python membership `key in x` for a string key: key test on dicts,
element equality on lists, substring test on strings; other values raise
TypeError. -/
def Json.containsKey : Json → String → Except String Bool
  | Json.obj kvs, key => Except.ok (lookupKey kvs key).isSome
  | Json.arr xs, key => Except.ok (xs.any fun x => jsonEqStr x key)
  | Json.str s, key => Except.ok (strContains s key)
  | _, _ => Except.error "TypeError: argument is not iterable"

/-- Python iteration `for v in x`: elements of a list, keys of a dict,
one-character strings of a str; other values raise TypeError. -/
def Json.pyElems : Json → Except String (List Json)
  | Json.arr xs => Except.ok xs
  | Json.obj kvs => Except.ok (kvs.map fun kv => Json.str kv.1)
  | Json.str s => Except.ok (s.toList.map fun c => Json.str (String.singleton c))
  | _ => Except.error "TypeError: value is not iterable"

/-- Python slice-then-iterate `x[:5]` (src/weather.py:105): the first five
elements of a list, the first five characters of a str; a dict (or any
other value) raises TypeError on the slice. -/
def Json.pyTake5 : Json → Except String (List Json)
  | Json.arr xs => Except.ok (xs.take 5)
  | Json.str s => Except.ok ((s.toList.take 5).map fun c => Json.str (String.singleton c))
  | _ => Except.error "TypeError: value does not support slicing"

/-- Base URL constant (src/weather.py:11). -/
def NWS_API_BASE : String := "https://api.weather.gov"

/-- Outcome of one HTTP GET attempt inside `make_nws_request`
(src/weather.py:26-32): either the transport raised (DNS failure,
connection error, timeout), or a response with some status arrived whose
body either parses as JSON or fails to decode. -/
inductive NetOutcome where
  | transportError : NetOutcome
  | response : Nat → Except String Json → NetOutcome

/-- httpx `Response.is_success`: a 2xx status.  `raise_for_status` raises
on every other status. -/
def is2xx (status : Nat) : Bool := 200 ≤ status && status < 300

/-- Body of the `try` block of `make_nws_request` (src/weather.py:28-30):
the transport may raise, `raise_for_status` raises on any non-2xx status,
and `response.json()` raises on a decode failure. -/
def requestAttempt : NetOutcome → Except String Json
  | NetOutcome.transportError => Except.error "httpx transport error"
  | NetOutcome.response status body =>
    if is2xx status then body else Except.error "HTTPStatusError"

/-- `make_nws_request` (src/weather.py:16-32): the `except Exception`
handler turns every raise inside the try block into `None`. -/
def make_nws_request (o : NetOutcome) : Option Json :=
  match requestAttempt o with
  | Except.ok j => some j
  | Except.error _ => none

/-- `format_alert` (src/weather.py:35-54).  `feature.get` raises unless
`feature` is a dict; each `properties.get` raises unless `properties` is a
dict, and the first such call (`event`) is the one that raises. -/
def format_alert (feature : Json) : Except String String :=
  match Json.pyGet feature "properties" (Json.obj []) with
  | Except.error e => Except.error e
  | Except.ok properties =>
  match Json.pyGet properties "event" (Json.str "Unknown Event") with
  | Except.error e => Except.error e
  | Except.ok event =>
  match Json.pyGet properties "areaDesc" (Json.str "Unknown Area") with
  | Except.error e => Except.error e
  | Except.ok area =>
  match Json.pyGet properties "severity" (Json.str "Unknown Severity") with
  | Except.error e => Except.error e
  | Except.ok severity =>
  match Json.pyGet properties "description" (Json.str "No description available.") with
  | Except.error e => Except.error e
  | Except.ok description =>
  match Json.pyGet properties "instruction" (Json.str "No specific instructions provided.") with
  | Except.error e => Except.error e
  | Except.ok instructions =>
    Except.ok ("**" ++ pyStr event ++ "**\n" ++
      "*Area:* " ++ pyStr area ++ "\n\n" ++
      "*Severity:* " ++ pyStr severity ++ "\n" ++
      pyStr description ++ "\n\n" ++
      "**Instructions:** " ++ pyStr instructions)

/-- The list comprehension `[format_alert(feature) for feature in ...]`
(src/weather.py:75): the first feature whose formatting raises aborts the
whole comprehension. -/
def formatAlerts : List Json → Except String (List String)
  | [] => Except.ok []
  | f :: rest =>
    match format_alert f with
    | Except.error e => Except.error e
    | Except.ok s =>
      match formatAlerts rest with
      | Except.error e => Except.error e
      | Except.ok ss => Except.ok (s :: ss)

/-- `get_alerts` (src/weather.py:59-76), as a function of the fetched
result `data` (`none` models the fetcher returning `None`).  Mirrors the
source line by line: the short-circuit `not data or "features" not in
data` check, the emptiness check on `data["features"]`, and the join of
the formatted features with the literal separator. -/
def get_alerts (data : Option Json) : Except String String :=
  match data with
  | none => Except.ok "Unable to fetch alerts or no alerts found."
  | some d =>
  if d.truthy = false then Except.ok "Unable to fetch alerts or no alerts found."
  else
  match d.containsKey "features" with
  | Except.error e => Except.error e
  | Except.ok false => Except.ok "Unable to fetch alerts or no alerts found."
  | Except.ok true =>
  match d.indexStr "features" with
  | Except.error e => Except.error e
  | Except.ok features =>
  if features.truthy = false then Except.ok "No active alerts for this state."
  else
  match features.pyElems with
  | Except.error e => Except.error e
  | Except.ok elems =>
  match formatAlerts elems with
  | Except.error e => Except.error e
  | Except.ok alerts => Except.ok (String.intercalate "\n---\n" alerts)

/-- The points URL built at src/weather.py:89; the coordinates appear via
their f-string rendering, taken here as the string parameters. -/
def points_url (latitude longitude : String) : String :=
  NWS_API_BASE ++ "/points/" ++ latitude ++ "," ++ longitude

/-- The second `make_nws_request` call (src/weather.py:97), keyed by the
value extracted from `points_data`: with a str URL the request proceeds;
any non-str URL makes `client.get` raise inside the try block of
`make_nws_request`, which therefore returns `None`. -/
def fetchAtUrl (fetch : String → Option Json) : Json → Option Json
  | Json.str u => fetch u
  | _ => none

/-- Rendering of one forecast period, the body of the loop at
src/weather.py:106-115.  Each subscript raises KeyError if the field is
missing; note the trailing newline of the last f-string line
(src/weather.py:114). -/
def renderPeriod (period : Json) : Except String String :=
  match period.indexStr "name" with
  | Except.error e => Except.error e
  | Except.ok name =>
  match period.indexStr "temperature" with
  | Except.error e => Except.error e
  | Except.ok temperature =>
  match period.indexStr "temperatureUnit" with
  | Except.error e => Except.error e
  | Except.ok temperatureUnit =>
  match period.indexStr "windSpeed" with
  | Except.error e => Except.error e
  | Except.ok windSpeed =>
  match period.indexStr "windDirection" with
  | Except.error e => Except.error e
  | Except.ok windDirection =>
  match period.indexStr "detailedForecast" with
  | Except.error e => Except.error e
  | Except.ok detailedForecast =>
    Except.ok ("**" ++ pyStr name ++ "**\n" ++
      "- Temperature: " ++ (pyStr temperature ++ "°" ++ pyStr temperatureUnit) ++ "\n" ++
      "- Wind: " ++ (pyStr windSpeed ++ " " ++ pyStr windDirection) ++ "\n" ++
      "- Forecast: " ++ pyStr detailedForecast ++ "\n")

/-- The formatting loop of `get_forecast` (src/weather.py:104-117).  The
body unconditionally executes `return "\n---\n".join(forecasts)` on its
first iteration (the `return` sits inside the `for` body, src/weather.py:117),
so any later elements of `periods` are never visited; with an empty
`periods` the loop body never runs and the function falls off the end,
returning Python `None` (modelled as `Except.ok none`). -/
def forecastLoop (periods : List Json) (forecasts : List String) : Except String (Option String) :=
  match periods with
  | [] => Except.ok none
  | period :: _laterPeriodsNeverReached =>
    match renderPeriod period with
    | Except.error e => Except.error e
    | Except.ok forecast =>
      Except.ok (some (String.intercalate "\n---\n" (forecasts ++ [forecast])))

/-- `get_forecast` (src/weather.py:80-117), as a function of a fetch
oracle giving each `make_nws_request` result by URL, and of the rendered
coordinate strings.  The result is `Except.ok (some s)` when the Python
function returns the string `s`, `Except.ok none` when it falls through
returning `None`, and `Except.error e` when a subscript raises. -/
def get_forecast (fetch : String → Option Json) (latitude longitude : String) :
    Except String (Option String) :=
  match fetch (points_url latitude longitude) with
  | none => Except.ok (some "Unable to fetch forecast data for this location.")
  | some points_data =>
  if points_data.truthy = false then
    Except.ok (some "Unable to fetch forecast data for this location.")
  else
  match points_data.indexStr "properties" with
  | Except.error e => Except.error e
  | Except.ok pprops =>
  match pprops.indexStr "forecast" with
  | Except.error e => Except.error e
  | Except.ok forecast_url =>
  match fetchAtUrl fetch forecast_url with
  | none => Except.ok (some "Unable to fetch detailed forecast.")
  | some forecast_data =>
  if forecast_data.truthy = false then
    Except.ok (some "Unable to fetch detailed forecast.")
  else
  match forecast_data.indexStr "properties" with
  | Except.error e => Except.error e
  | Except.ok fprops =>
  match fprops.indexStr "periods" with
  | Except.error e => Except.error e
  | Except.ok periods =>
  match periods.pyTake5 with
  | Except.error e => Except.error e
  | Except.ok sliced => forecastLoop sliced []

/-! Concrete sample data used to instantiate the theorems below. -/

/-- Sample forecast URL as found inside a points response. -/
def demoForecastUrl : String := "https://api.weather.gov/gridpoints/MTR/85,105/forecast"

/-- Entries of a well-formed points response. -/
def demoPointsEntries : List (String × Json) :=
  [("properties", Json.obj [("forecast", Json.str demoForecastUrl)])]

/-- A well-formed first forecast period. -/
def demoPeriod1 : Json :=
  Json.obj [("name", Json.str "Tonight"), ("temperature", Json.int 65),
    ("temperatureUnit", Json.str "F"), ("windSpeed", Json.str "5 mph"),
    ("windDirection", Json.str "NW"), ("detailedForecast", Json.str "Clear.")]

/-- A well-formed second forecast period, present to show it is ignored. -/
def demoPeriod2 : Json :=
  Json.obj [("name", Json.str "Monday"), ("temperature", Json.int 70),
    ("temperatureUnit", Json.str "F"), ("windSpeed", Json.str "10 mph"),
    ("windDirection", Json.str "W"), ("detailedForecast", Json.str "Sunny.")]

/-- Entries of a well-formed two-period forecast document. -/
def demoForecastEntries : List (String × Json) :=
  [("properties", Json.obj [("periods", Json.arr [demoPeriod1, demoPeriod2])])]

/-- Fetch oracle: a healthy network serving the two demo documents. -/
def demoFetch : String → Option Json := fun url =>
  if url = points_url "37.7749" "-122.4194" then some (Json.obj demoPointsEntries)
  else if url = demoForecastUrl then some (Json.obj demoForecastEntries)
  else none

/-- Fetch oracle: the points document is served, every other URL fails. -/
def demoFetchPointsOnly : String → Option Json := fun url =>
  if url = points_url "37.7749" "-122.4194" then some (Json.obj demoPointsEntries)
  else none

/-- Fetch oracle: the forecast document has an empty periods list. -/
def demoFetchEmptyPeriods : String → Option Json := fun url =>
  if url = points_url "37.7749" "-122.4194" then some (Json.obj demoPointsEntries)
  else if url = demoForecastUrl then
    some (Json.obj [("properties", Json.obj [("periods", Json.arr [])])])
  else none

/-- The string `format_alert` produces for an empty feature object. -/
def defaultAlertText : String :=
  "**Unknown Event**\n*Area:* Unknown Area\n\n*Severity:* Unknown Severity\nNo description available.\n\n**Instructions:** No specific instructions provided."

/-! Helper lemmas. -/

/-- A dict with a successful key lookup is nonempty, hence truthy. -/
theorem truthy_obj_of_lookup (kvs : List (String × Json)) (k : String) (v : Json)
    (h : lookupKey kvs k = some v) : Json.truthy (Json.obj kvs) = true := by
  cases kvs with
  | nil => simp [lookupKey] at h
  | cons hd tl => simp [Json.truthy]

/-- A string starting with the bold marker is nonempty. -/
theorem bold_append_ne_empty (t : String) : ("**" ++ t) ≠ "" := by
  intro h
  have hl := congrArg String.length h
  rw [String.length_append] at hl
  have h2 : "**".length = 2 := rfl
  rw [h2] at hl
  simp at hl

/-- Joining a one-element list needs no separator. -/
theorem intercalate_single (sep s : String) : String.intercalate sep [s] = s := rfl

/-- The comprehension formats each feature when every single formatting
succeeds. -/
theorem formatAlerts_map (fs : List Json) (g : Json → String)
    (h : ∀ f ∈ fs, format_alert f = Except.ok (g f)) :
    formatAlerts fs = Except.ok (fs.map g) := by
  induction fs with
  | nil => rfl
  | cons f rest ih =>
    have hf := h f (by simp)
    have hrest := ih (fun x hx => h x (by simp [hx]))
    simp [formatAlerts, hf, hrest]

/-! Claim theorems. -/

/-- C3: whenever the fetch result is Absent, or the fetched JSON object
lacks a `features` field, `get_alerts` returns exactly the string
"Unable to fetch alerts or no alerts found.". -/
theorem get_alerts_absent_or_missing_features (data : Option Json)
    (h : data = none ∨
      ∃ entries, data = some (Json.obj entries) ∧ lookupKey entries "features" = none) :
    get_alerts data = Except.ok "Unable to fetch alerts or no alerts found." := by
  rcases h with rfl | ⟨entries, rfl, hl⟩
  · rfl
  · cases entries with
    | nil => rfl
    | cons hd tl =>
      simp [get_alerts, Json.truthy, Json.containsKey, hl]

/-- Witness for C3: a response object carrying only a `type` field (no
`features`) yields the fetch-failure sentinel. -/
theorem get_alerts_absent_or_missing_features_witness :
    get_alerts (some (Json.obj [("type", Json.str "FeatureCollection")])) =
      Except.ok "Unable to fetch alerts or no alerts found." :=
  get_alerts_absent_or_missing_features
    (some (Json.obj [("type", Json.str "FeatureCollection")]))
    (Or.inr ⟨[("type", Json.str "FeatureCollection")], rfl, rfl⟩)

/-- C4: whenever the fetched JSON object has a `features` field holding an
empty sequence, `get_alerts` returns exactly the string
"No active alerts for this state.". -/
theorem get_alerts_empty_features (entries : List (String × Json))
    (h : lookupKey entries "features" = some (Json.arr [])) :
    get_alerts (some (Json.obj entries)) = Except.ok "No active alerts for this state." := by
  have ht := truthy_obj_of_lookup entries "features" (Json.arr []) h
  have harr : Json.truthy (Json.arr []) = false := rfl
  simp [get_alerts, ht, Json.containsKey, Json.indexStr, h, harr]

/-- Witness for C4: the response `\x7b"features": []\x7d` yields the
no-active-alerts sentinel. -/
theorem get_alerts_empty_features_witness :
    get_alerts (some (Json.obj [("features", Json.arr [])])) =
      Except.ok "No active alerts for this state." :=
  get_alerts_empty_features [("features", Json.arr [])] rfl

/-- C2: whenever the fetched response object carries a non-empty `features`
sequence and each feature formats successfully, `get_alerts` returns every
feature's formatting joined with the literal separator `"\n---\n"`. -/
theorem get_alerts_joins_all_features (entries : List (String × Json))
    (fs : List Json) (g : Json → String)
    (h1 : lookupKey entries "features" = some (Json.arr fs))
    (h2 : fs ≠ [])
    (h3 : ∀ f ∈ fs, format_alert f = Except.ok (g f)) :
    get_alerts (some (Json.obj entries)) =
      Except.ok (String.intercalate "\n---\n" (fs.map g)) := by
  have ht := truthy_obj_of_lookup entries "features" (Json.arr fs) h1
  have hfs : Json.truthy (Json.arr fs) = true := by
    cases fs with
    | nil => exact absurd rfl h2
    | cons a l => simp [Json.truthy]
  have hmap := formatAlerts_map fs g h3
  simp [get_alerts, ht, Json.containsKey, Json.indexStr, h1, hfs, Json.pyElems, hmap]

/-- Witness for C2: two empty feature objects are each formatted to the
all-defaults text and joined with the separator. -/
theorem get_alerts_joins_all_features_witness :
    get_alerts (some (Json.obj [("features", Json.arr [Json.obj [], Json.obj []])])) =
      Except.ok (String.intercalate "\n---\n"
        ([Json.obj [], Json.obj []].map fun _ => defaultAlertText)) :=
  get_alerts_joins_all_features [("features", Json.arr [Json.obj [], Json.obj []])]
    [Json.obj [], Json.obj []] (fun _ => defaultAlertText) rfl (by simp)
    (by
      intro f hf
      have hcases : f = Json.obj [] ∨ f = Json.obj [] := by simpa using hf
      rcases hcases with rfl | rfl
      · rfl
      · rfl)

/-- C5 counterexample: `format_alert` is not total over any JSON input.
On the object `\x7b"properties": None\x7d` the call `properties.get`
raises AttributeError (`None` has no `get` method), so the function fails
instead of returning a defaults-filled string. -/
theorem format_alert_not_total_counterexample :
    format_alert (Json.obj [("properties", Json.null)]) =
      Except.error "AttributeError: object has no attribute get" := rfl

/-- C5 amended: for every JSON object input whose `properties` field is
absent or is itself a JSON object, `format_alert` never fails and returns
a non-empty string: the five-section template with each field's
placeholder default substituted when the field is missing. -/
theorem format_alert_total_on_objects (entries props : List (String × Json))
    (h : (lookupKey entries "properties").getD (Json.obj []) = Json.obj props) :
    ∃ s, format_alert (Json.obj entries) = Except.ok s ∧ s ≠ "" ∧
      s = "**" ++ pyStr ((lookupKey props "event").getD (Json.str "Unknown Event")) ++ "**\n" ++
        "*Area:* " ++ pyStr ((lookupKey props "areaDesc").getD (Json.str "Unknown Area")) ++ "\n\n" ++
        "*Severity:* " ++ pyStr ((lookupKey props "severity").getD (Json.str "Unknown Severity")) ++ "\n" ++
        pyStr ((lookupKey props "description").getD (Json.str "No description available.")) ++ "\n\n" ++
        "**Instructions:** " ++ pyStr ((lookupKey props "instruction").getD (Json.str "No specific instructions provided.")) := by
  refine ⟨_, ?_, ?_, rfl⟩
  · simp [format_alert, Json.pyGet, h]
  · apply bold_append_ne_empty

/-- Witness for C5 (amended): a feature whose properties carry only an
`event` field formats successfully. -/
theorem format_alert_total_on_objects_witness :
    ∃ s, format_alert (Json.obj [("properties", Json.obj [("event", Json.str "Flood Warning")])]) =
        Except.ok s ∧ s ≠ "" ∧
      s = "**" ++ pyStr ((lookupKey [("event", Json.str "Flood Warning")] "event").getD (Json.str "Unknown Event")) ++ "**\n" ++
        "*Area:* " ++ pyStr ((lookupKey [("event", Json.str "Flood Warning")] "areaDesc").getD (Json.str "Unknown Area")) ++ "\n\n" ++
        "*Severity:* " ++ pyStr ((lookupKey [("event", Json.str "Flood Warning")] "severity").getD (Json.str "Unknown Severity")) ++ "\n" ++
        pyStr ((lookupKey [("event", Json.str "Flood Warning")] "description").getD (Json.str "No description available.")) ++ "\n\n" ++
        "**Instructions:** " ++ pyStr ((lookupKey [("event", Json.str "Flood Warning")] "instruction").getD (Json.str "No specific instructions provided.")) :=
  format_alert_total_on_objects [("properties", Json.obj [("event", Json.str "Flood Warning")])]
    [("event", Json.str "Flood Warning")] rfl

/-- C1: on a well-formed forecast response whose `properties.periods` list
has at least one period, `get_forecast` returns only the first period's
rendering, however many periods follow: the loop body appends the first
formatted period and immediately returns the joined accumulator. -/
theorem get_forecast_first_period_only
    (fetch : String → Option Json) (latitude longitude u : String)
    (pd props fd fprops : List (String × Json)) (p : Json) (rest : List Json) (r : String)
    (h1 : fetch (points_url latitude longitude) = some (Json.obj pd))
    (h2 : lookupKey pd "properties" = some (Json.obj props))
    (h3 : lookupKey props "forecast" = some (Json.str u))
    (h4 : fetch u = some (Json.obj fd))
    (h5 : lookupKey fd "properties" = some (Json.obj fprops))
    (h6 : lookupKey fprops "periods" = some (Json.arr (p :: rest)))
    (h7 : renderPeriod p = Except.ok r) :
    get_forecast fetch latitude longitude = Except.ok (some r) := by
  have ht1 := truthy_obj_of_lookup pd "properties" (Json.obj props) h2
  have ht2 := truthy_obj_of_lookup fd "properties" (Json.obj fprops) h5
  simp [get_forecast, h1, ht1, Json.indexStr, h2, h3, fetchAtUrl, h4, ht2, h5, h6,
    Json.pyTake5, forecastLoop, h7, intercalate_single]

/-- Witness for C1: with a healthy two-period forecast document, the
result is exactly the first period's rendering. -/
theorem get_forecast_first_period_only_witness :
    get_forecast demoFetch "37.7749" "-122.4194" =
      Except.ok (some "**Tonight**\n- Temperature: 65°F\n- Wind: 5 mph NW\n- Forecast: Clear.\n") :=
  get_forecast_first_period_only demoFetch "37.7749" "-122.4194" demoForecastUrl
    demoPointsEntries [("forecast", Json.str demoForecastUrl)]
    demoForecastEntries [("periods", Json.arr [demoPeriod1, demoPeriod2])]
    demoPeriod1 [demoPeriod2]
    "**Tonight**\n- Temperature: 65°F\n- Wind: 5 mph NW\n- Forecast: Clear.\n"
    rfl rfl rfl rfl rfl rfl rfl

/-- C6: `get_forecast` returns exactly
"Unable to fetch forecast data for this location." when the points fetch
is Absent, and exactly "Unable to fetch detailed forecast." when the
points fetch succeeds (with a well-formed points document) but the
subsequent forecast fetch is Absent. -/
theorem get_forecast_absent_sentinels
    (fetch : String → Option Json) (latitude longitude : String) :
    (fetch (points_url latitude longitude) = none →
      get_forecast fetch latitude longitude =
        Except.ok (some "Unable to fetch forecast data for this location.")) ∧
    (∀ (pd props : List (String × Json)) (u : String),
      fetch (points_url latitude longitude) = some (Json.obj pd) →
      lookupKey pd "properties" = some (Json.obj props) →
      lookupKey props "forecast" = some (Json.str u) →
      fetch u = none →
      get_forecast fetch latitude longitude =
        Except.ok (some "Unable to fetch detailed forecast.")) := by
  constructor
  · intro h
    simp [get_forecast, h]
  · intro pd props u h1 h2 h3 h4
    have ht := truthy_obj_of_lookup pd "properties" (Json.obj props) h2
    simp [get_forecast, h1, ht, Json.indexStr, h2, h3, fetchAtUrl, h4]

/-- Witness for C6: a dead network yields the first sentinel; a network
serving only the points document yields the second sentinel. -/
theorem get_forecast_absent_sentinels_witness :
    get_forecast (fun _ => none) "37.7749" "-122.4194" =
      Except.ok (some "Unable to fetch forecast data for this location.") ∧
    get_forecast demoFetchPointsOnly "37.7749" "-122.4194" =
      Except.ok (some "Unable to fetch detailed forecast.") :=
  ⟨(get_forecast_absent_sentinels (fun _ => none) "37.7749" "-122.4194").1 rfl,
   (get_forecast_absent_sentinels demoFetchPointsOnly "37.7749" "-122.4194").2
     demoPointsEntries [("forecast", Json.str demoForecastUrl)] demoForecastUrl
     rfl rfl rfl rfl⟩

/-- C7: the fetcher treats every failure uniformly.  A transport error, a
non-2xx status, or a JSON-decode failure each make `make_nws_request`
return Absent (the catch-all handler swallows the raise), and the handlers
then return their sentinel strings, so no exception escapes a tool handler
because of a network failure. -/
theorem make_nws_request_failures_absent (o : NetOutcome) (latitude longitude : String)
    (h : o = NetOutcome.transportError ∨
      (∃ status body, o = NetOutcome.response status body ∧ is2xx status = false) ∨
      (∃ status e, o = NetOutcome.response status (Except.error e))) :
    make_nws_request o = none ∧
    get_alerts (make_nws_request o) =
      Except.ok "Unable to fetch alerts or no alerts found." ∧
    get_forecast (fun _ => make_nws_request o) latitude longitude =
      Except.ok (some "Unable to fetch forecast data for this location.") := by
  have hm : make_nws_request o = none := by
    rcases h with rfl | ⟨status, body, rfl, hs⟩ | ⟨status, e, rfl⟩
    · rfl
    · simp [make_nws_request, requestAttempt, hs]
    · by_cases hs : is2xx status <;> simp [make_nws_request, requestAttempt, hs]
  refine ⟨hm, ?_, ?_⟩
  · rw [hm]; rfl
  · simp [get_forecast, hm]

/-- Witness for C7: a connection error yields Absent and the two handler
sentinels. -/
theorem make_nws_request_failures_absent_witness :
    make_nws_request NetOutcome.transportError = none ∧
    get_alerts (make_nws_request NetOutcome.transportError) =
      Except.ok "Unable to fetch alerts or no alerts found." ∧
    get_forecast (fun _ => make_nws_request NetOutcome.transportError) "37.7749" "-122.4194" =
      Except.ok (some "Unable to fetch forecast data for this location.") :=
  make_nws_request_failures_absent NetOutcome.transportError "37.7749" "-122.4194" (Or.inl rfl)

/-- C8 counterexample: the claim fails on the empty points document.  The
points fetch succeeds with `\x7b\x7d`, a JSON object that omits
`properties.forecast`, yet `get_forecast` does not fail with a lookup
error: the `not points_data` truthiness check treats the empty dict like a
failed fetch and returns the graceful sentinel. -/
theorem get_forecast_falsy_points_counterexample :
    get_forecast (fun _ => some (Json.obj [])) "37.7749" "-122.4194" =
      Except.ok (some "Unable to fetch forecast data for this location.") ∧
    ¬ ∃ e, get_forecast (fun _ => some (Json.obj [])) "37.7749" "-122.4194" =
      Except.error e := by
  constructor
  · rfl
  · rintro ⟨e, he⟩
    have h2 : (Except.ok (some "Unable to fetch forecast data for this location.") :
        Except String (Option String)) = Except.error e := he
    exact Except.noConfusion h2

/-- C8 amended: when the points fetch succeeds with a truthy (non-empty)
JSON object that omits the `properties.forecast` field — either
`properties` is missing, or it is an object without `forecast` —
`get_forecast` fails with an unhandled lookup error instead of returning a
graceful sentinel message. -/
theorem get_forecast_missing_forecast_raises
    (fetch : String → Option Json) (latitude longitude : String)
    (pd : List (String × Json))
    (h1 : fetch (points_url latitude longitude) = some (Json.obj pd))
    (hne : pd ≠ [])
    (h2 : lookupKey pd "properties" = none ∨
      ∃ props, lookupKey pd "properties" = some (Json.obj props) ∧
        lookupKey props "forecast" = none) :
    ∃ e, get_forecast fetch latitude longitude = Except.error e := by
  have ht : Json.truthy (Json.obj pd) = true := by
    cases pd with
    | nil => exact absurd rfl hne
    | cons a l => simp [Json.truthy]
  rcases h2 with h2 | ⟨props, h2, h3⟩
  · exact ⟨"KeyError: properties", by simp [get_forecast, h1, ht, Json.indexStr, h2]⟩
  · exact ⟨"KeyError: forecast", by simp [get_forecast, h1, ht, Json.indexStr, h2, h3]⟩

/-- Witness for C8 (amended): a points document whose properties lack the
`forecast` URL makes the handler raise. -/
theorem get_forecast_missing_forecast_raises_witness :
    ∃ e, get_forecast (fun _ => some (Json.obj [("properties", Json.obj [])]))
      "37.7749" "-122.4194" = Except.error e :=
  get_forecast_missing_forecast_raises (fun _ => some (Json.obj [("properties", Json.obj [])]))
    "37.7749" "-122.4194" [("properties", Json.obj [])] rfl (by simp)
    (Or.inr ⟨[], rfl, rfl⟩)

/-- C9 counterexample: the claim fails on a healthy forecast document.
The rendered period carries a trailing newline (the last f-string line of
the loop body ends in `\n`, src/weather.py:114), so the output is the
claimed template plus one extra character. -/
theorem renderPeriod_trailing_newline_counterexample :
    get_forecast demoFetch "37.7749" "-122.4194" =
      Except.ok (some "**Tonight**\n- Temperature: 65°F\n- Wind: 5 mph NW\n- Forecast: Clear.\n") ∧
    "**Tonight**\n- Temperature: 65°F\n- Wind: 5 mph NW\n- Forecast: Clear.\n" ≠
      "**Tonight**\n- Temperature: 65°F\n- Wind: 5 mph NW\n- Forecast: Clear." :=
  ⟨rfl, by decide⟩

/-- C9 amended: every period rendered by the forecast loop is rendered
exactly as the literal template
`**<name>**\n- Temperature: <temperature>°<temperatureUnit>\n- Wind: <windSpeed> <windDirection>\n- Forecast: <detailedForecast>\n`,
i.e. the claimed template followed by one trailing newline. -/
theorem renderPeriod_template (entries : List (String × Json))
    (nm tp tu ws wd df : Json)
    (h1 : lookupKey entries "name" = some nm)
    (h2 : lookupKey entries "temperature" = some tp)
    (h3 : lookupKey entries "temperatureUnit" = some tu)
    (h4 : lookupKey entries "windSpeed" = some ws)
    (h5 : lookupKey entries "windDirection" = some wd)
    (h6 : lookupKey entries "detailedForecast" = some df) :
    renderPeriod (Json.obj entries) =
      Except.ok ("**" ++ pyStr nm ++ "**\n" ++
        "- Temperature: " ++ (pyStr tp ++ "°" ++ pyStr tu) ++ "\n" ++
        "- Wind: " ++ (pyStr ws ++ " " ++ pyStr wd) ++ "\n" ++
        "- Forecast: " ++ pyStr df ++ "\n") := by
  simp [renderPeriod, Json.indexStr, h1, h2, h3, h4, h5, h6]

/-- Witness for C9 (amended): the demo period renders to the template with
its trailing newline. -/
theorem renderPeriod_template_witness :
    renderPeriod demoPeriod1 =
      Except.ok ("**" ++ pyStr (Json.str "Tonight") ++ "**\n" ++
        "- Temperature: " ++ (pyStr (Json.int 65) ++ "°" ++ pyStr (Json.str "F")) ++ "\n" ++
        "- Wind: " ++ (pyStr (Json.str "5 mph") ++ " " ++ pyStr (Json.str "NW")) ++ "\n" ++
        "- Forecast: " ++ pyStr (Json.str "Clear.") ++ "\n") :=
  renderPeriod_template
    [("name", Json.str "Tonight"), ("temperature", Json.int 65),
      ("temperatureUnit", Json.str "F"), ("windSpeed", Json.str "5 mph"),
      ("windDirection", Json.str "NW"), ("detailedForecast", Json.str "Clear.")]
    (Json.str "Tonight") (Json.int 65) (Json.str "F") (Json.str "5 mph")
    (Json.str "NW") (Json.str "Clear.") rfl rfl rfl rfl rfl rfl

/-- C10: when both fetches succeed and `properties.periods` is an empty
list, the loop body never runs, the function falls off its end, and the
Python value `None` is returned (modelled `Except.ok none`) — no string at
all, violating the handler's declared string return contract. -/
theorem get_forecast_empty_periods_returns_none
    (fetch : String → Option Json) (latitude longitude u : String)
    (pd props fd fprops : List (String × Json))
    (h1 : fetch (points_url latitude longitude) = some (Json.obj pd))
    (h2 : lookupKey pd "properties" = some (Json.obj props))
    (h3 : lookupKey props "forecast" = some (Json.str u))
    (h4 : fetch u = some (Json.obj fd))
    (h5 : lookupKey fd "properties" = some (Json.obj fprops))
    (h6 : lookupKey fprops "periods" = some (Json.arr [])) :
    get_forecast fetch latitude longitude = Except.ok none := by
  have ht1 := truthy_obj_of_lookup pd "properties" (Json.obj props) h2
  have ht2 := truthy_obj_of_lookup fd "properties" (Json.obj fprops) h5
  simp [get_forecast, h1, ht1, Json.indexStr, h2, h3, fetchAtUrl, h4, ht2, h5, h6,
    Json.pyTake5, forecastLoop]

/-- Witness for C10: a forecast document with `periods: []` makes the
handler return `None`. -/
theorem get_forecast_empty_periods_returns_none_witness :
    get_forecast demoFetchEmptyPeriods "37.7749" "-122.4194" = Except.ok none :=
  get_forecast_empty_periods_returns_none demoFetchEmptyPeriods "37.7749" "-122.4194"
    demoForecastUrl demoPointsEntries [("forecast", Json.str demoForecastUrl)]
    [("properties", Json.obj [("periods", Json.arr [])])]
    [("periods", Json.arr [])] rfl rfl rfl rfl rfl rfl

end Weather
